import Mathlib

/-!
Shallow embedding of `cantrip-os-rootserver/src/lib.rs` (the CantripOS capDL
rootserver).  Machine words (`seL4_CPtr`, `seL4_Word`, `usize`) are modelled as
`Nat`; Rust's panicking array indexing is modelled with `Option` (`none` is a
panic, i.e. a fatal process abort); the fallible external engine calls
(`init_system`, `handoff_capabilities`, `start_threads`) are modelled by their
success/failure outcome, since their bodies live outside this crate.
-/

/- Compile-time configuration constants.  We fix the default (non-SHODAN,
non-NEXUS) `cfg_if!` branch of the source: `CONFIG_CAPDL_LOADER_MAX_OBJECTS =
10000`, `CONFIG_MAX_NUM_BOOTINFO_UNTYPED_CAPS = 230`. -/

def CONFIG_CAPDL_LOADER_MAX_OBJECTS : Nat := 10000

def CONFIG_MAX_NUM_BOOTINFO_UNTYPED_CAPS : Nat := 230

def CONFIG_MAX_NUM_IRQS : Nat := 128

def CONFIG_MAX_NUM_NODES : Nat := 1

/-- The five fixed-capacity capability tables of `struct CantripOsModelState`.
Each Rust array `[seL4_CPtr; N]` is a `List Nat`; well-formed states have the
configured lengths (see `WF`). -/
structure CantripOsModelState where
  capdl_to_sel4_orig : List Nat
  capdl_to_sel4_dup : List Nat
  capdl_to_sel4_irq : List Nat
  capdl_to_sched_ctrl : List Nat
  untyped_cptrs : List Nat
deriving DecidableEq

/-- `CantripOsModelState::new()`: every table is filled with the zero
sentinel (`[0 as seL4_CPtr; N]`). -/
def CantripOsModelState.new : CantripOsModelState where
  capdl_to_sel4_orig := List.replicate CONFIG_CAPDL_LOADER_MAX_OBJECTS 0
  capdl_to_sel4_dup := List.replicate CONFIG_CAPDL_LOADER_MAX_OBJECTS 0
  capdl_to_sel4_irq := List.replicate CONFIG_MAX_NUM_IRQS 0
  capdl_to_sched_ctrl := List.replicate CONFIG_MAX_NUM_NODES 0
  untyped_cptrs := List.replicate CONFIG_MAX_NUM_BOOTINFO_UNTYPED_CAPS 0

/-- A state whose tables have the declared compile-time capacities.  In Rust
this is enforced by the array types themselves. -/
def WF (s : CantripOsModelState) : Prop :=
  s.capdl_to_sel4_orig.length = CONFIG_CAPDL_LOADER_MAX_OBJECTS ∧
  s.capdl_to_sel4_dup.length = CONFIG_CAPDL_LOADER_MAX_OBJECTS ∧
  s.capdl_to_sel4_irq.length = CONFIG_MAX_NUM_IRQS ∧
  s.capdl_to_sched_ctrl.length = CONFIG_MAX_NUM_NODES ∧
  s.untyped_cptrs.length = CONFIG_MAX_NUM_BOOTINFO_UNTYPED_CAPS

instance (s : CantripOsModelState) : Decidable (WF s) := by
  unfold WF; infer_instance

/- The `impl ModelState for CantripOsModelState` accessors.  `get_max_*`
return the array lengths.  The `get_*` accessors are Rust `self.table[i]`
reads: `none` models the bounds-check panic.  The `set_*` accessors are Rust
`self.table[i] = v` writes: `none` models the bounds-check panic (Rust never
silently drops an out-of-range write). -/

def get_max_objects (s : CantripOsModelState) : Nat :=
  s.capdl_to_sel4_orig.length

def get_max_irqs (s : CantripOsModelState) : Nat :=
  s.capdl_to_sel4_irq.length

def get_max_sched_ctrl (s : CantripOsModelState) : Nat :=
  s.capdl_to_sched_ctrl.length

def get_max_untyped_caps (s : CantripOsModelState) : Nat :=
  s.untyped_cptrs.length

def get_orig_cap (s : CantripOsModelState) (obj_id : Nat) : Option Nat :=
  s.capdl_to_sel4_orig[obj_id]?

def set_orig_cap (s : CantripOsModelState) (obj_id : Nat) (slot : Nat) :
    Option CantripOsModelState :=
  if obj_id < s.capdl_to_sel4_orig.length then
    some { s with capdl_to_sel4_orig := s.capdl_to_sel4_orig.set obj_id slot }
  else none

def get_dup_cap (s : CantripOsModelState) (obj_id : Nat) : Option Nat :=
  s.capdl_to_sel4_dup[obj_id]?

def set_dup_cap (s : CantripOsModelState) (obj_id : Nat) (slot : Nat) :
    Option CantripOsModelState :=
  if obj_id < s.capdl_to_sel4_dup.length then
    some { s with capdl_to_sel4_dup := s.capdl_to_sel4_dup.set obj_id slot }
  else none

def get_irq_cap (s : CantripOsModelState) (irq : Nat) : Option Nat :=
  s.capdl_to_sel4_irq[irq]?

def set_irq_cap (s : CantripOsModelState) (irq : Nat) (slot : Nat) :
    Option CantripOsModelState :=
  if irq < s.capdl_to_sel4_irq.length then
    some { s with capdl_to_sel4_irq := s.capdl_to_sel4_irq.set irq slot }
  else none

def get_sched_ctrl_cap (s : CantripOsModelState) (id : Nat) : Option Nat :=
  s.capdl_to_sched_ctrl[id]?

def set_sched_ctrl_cap (s : CantripOsModelState) (id : Nat) (slot : Nat) :
    Option CantripOsModelState :=
  if id < s.capdl_to_sched_ctrl.length then
    some { s with capdl_to_sched_ctrl := s.capdl_to_sched_ctrl.set id slot }
  else none

def get_untyped_cptr (s : CantripOsModelState) (ix : Nat) : Option Nat :=
  s.untyped_cptrs[ix]?

def set_untyped_cptr (s : CantripOsModelState) (ix : Nat) (slot : Nat) :
    Option CantripOsModelState :=
  if ix < s.untyped_cptrs.length then
    some { s with untyped_cptrs := s.untyped_cptrs.set ix slot }
  else none

/- The console sink `CapdlLogger::log`.  It formats `target:args` into a
fixed 1024-byte buffer behind a `core2::io::Cursor`; a `Cursor` over a slice
accepts at most the remaining space on each write, and `write!` fails once a
byte cannot be written.  On failure the code rewinds to position `1024 - 3`
and writes the `"..."` marker, then the bytes `buf[..pos]` followed by one
newline are sent to the debug console. -/

def LOG_BUF_SIZE : Nat := 1024

/-- One `Write::write_all` on a `Cursor` over a `LOG_BUF_SIZE` slice: writes
as many bytes of `data` as fit starting at `pos`, returning the updated buffer
and position.  The write failed (Rust `WriteZero`) iff not all of `data` was
consumed, which callers detect by comparing positions. -/
def cursor_write (buf : List Nat) (pos : Nat) (data : List Nat) :
    List Nat × Nat :=
  let n := min data.length (LOG_BUF_SIZE - pos)
  (buf.take pos ++ data.take n ++ buf.drop (pos + n), pos + n)

/-- `CapdlLogger::log`: `formatted` is the byte sequence of the formatted
`target:message` text; the result is the byte sequence emitted to the debug
console (via `seL4_DebugPutChar`), including the trailing newline. -/
def capdl_log (formatted : List Nat) : List Nat :=
  let buf0 := List.replicate LOG_BUF_SIZE 0
  let w1 := cursor_write buf0 0 formatted
  let w2 :=
    if w1.2 < formatted.length then
      cursor_write w1.1 (LOG_BUF_SIZE - 3) [46, 46, 46]
    else w1
  w2.1.take w2.2 ++ [10]

/- The boot orchestrator `main`.  External inputs: the kernel boot descriptor
(`seL4_BootInfo`), the static capDL specification (`CDL_Model`), the value of
`seL4_GetIPCBuffer()`, and the outcomes of the three external engine calls. -/

/-- A `seL4_SlotRegion`; the Rust field `end` is spelled `stop` here because
`end` is a Lean keyword. -/
structure SlotRegion where
  start : Nat
  stop : Nat
deriving DecidableEq

/-- The fields of the kernel boot descriptor `seL4_BootInfo` that `main`
reads. -/
structure seL4_BootInfo where
  ipcBuffer : Nat
  empty : SlotRegion
  numNodes : Nat
  untyped : SlotRegion
  initThreadCNodeSizeBits : Nat
deriving DecidableEq

/-- The resource counts of the static specification `CDL_Model` that `main`
reads (it only logs them). -/
structure CDL_Model where
  num : Nat
  num_irqs : Nat
  num_untyped : Nat
  num_asid_slots : Nat
deriving DecidableEq

/-- Success/failure outcomes of the three external construction-engine calls;
`main` applies `.expect(..)` to each result, so `false` is a fatal abort. -/
structure EngineResults where
  init_system_ok : Bool
  handoff_ok : Bool
  start_ok : Bool
deriving DecidableEq

/-- The phases of the boot orchestration, in the order `main` runs them. -/
inductive Phase where
  | loggerInit
  | heapInit
  | validate
  | construct
  | handoff
  | start
  | suspend
deriving DecidableEq

/-- The full phase order of a successful boot. -/
def phaseOrder : List Phase :=
  [Phase.loggerInit, Phase.heapInit, Phase.validate, Phase.construct,
   Phase.handoff, Phase.start, Phase.suspend]

/-- The sequence of phases `main` enters, in order.  LoggerInit is the
`log::set_logger` block, HeapInit the `ALLOCATOR.init` block, Validate the
`assert_eq!(seL4_GetIPCBuffer(), bootinfo.ipcBuffer)` check followed by the
`assert!(bootinfo.empty.end - bootinfo.empty.start >=
CONFIG_CAPDL_LOADER_MAX_OBJECTS)` check, Construct the `init_system` call,
Handoff the `handoff_capabilities` call, Start the `start_threads` call and
Suspend the final `seL4_TCB_Suspend`.  A failed assert or a failed engine
call aborts the process, ending the trace.  Note `main` reads `spec` only to
log its counts, so the trace does not depend on it. -/
def mainTrace (bi : seL4_BootInfo) (spec : CDL_Model) (ipcSelf : Nat)
    (eng : EngineResults) : List Phase :=
  Phase.loggerInit :: Phase.heapInit :: Phase.validate ::
    (if ipcSelf = bi.ipcBuffer then
      if CONFIG_CAPDL_LOADER_MAX_OBJECTS ≤ bi.empty.stop - bi.empty.start then
        Phase.construct ::
          (if eng.init_system_ok then
            Phase.handoff ::
              (if eng.handoff_ok then
                Phase.start ::
                  (if eng.start_ok then [Phase.suspend] else [])
              else [])
          else [])
      else []
    else [])

/- Helper lemmas and concrete fixtures shared by the verification below. -/

theorem WF_new : WF CantripOsModelState.new := by
  simp [WF, CantripOsModelState.new]

/-- A kernel boot descriptor with 10000 free capability slots and consistent
bookkeeping fields. -/
def cx_bootinfo : seL4_BootInfo where
  ipcBuffer := 4096
  empty := ⟨1000, 11000⟩
  numNodes := 1
  untyped := ⟨12, 243⟩
  initThreadCNodeSizeBits := 18

/-- A specification whose untyped-region count 231 exceeds the configured
capacity `CONFIG_MAX_NUM_BOOTINFO_UNTYPED_CAPS = 230`. -/
def cx_spec : CDL_Model where
  num := 3
  num_irqs := 0
  num_untyped := 231
  num_asid_slots := 1

/-- Engine outcomes where every external call succeeds. -/
def cx_eng : EngineResults where
  init_system_ok := true
  handoff_ok := true
  start_ok := true

/-- Engine outcomes where `init_system` fails. -/
def cx_eng_fail : EngineResults where
  init_system_ok := false
  handoff_ok := true
  start_ok := true

/-- C6: a freshly constructed `CantripOsModelState` has every slot of all
five tables (orig, dup, irq, sched_ctrl, untyped_cptrs) equal to the zero
sentinel, so every get accessor returns 0 for every in-range index before any
set call. -/
theorem C6_fresh_state_all_zero (i : Nat) :
    (i < CONFIG_CAPDL_LOADER_MAX_OBJECTS →
      get_orig_cap CantripOsModelState.new i = some 0 ∧
      get_dup_cap CantripOsModelState.new i = some 0) ∧
    (i < CONFIG_MAX_NUM_IRQS →
      get_irq_cap CantripOsModelState.new i = some 0) ∧
    (i < CONFIG_MAX_NUM_NODES →
      get_sched_ctrl_cap CantripOsModelState.new i = some 0) ∧
    (i < CONFIG_MAX_NUM_BOOTINFO_UNTYPED_CAPS →
      get_untyped_cptr CantripOsModelState.new i = some 0) := by
  refine ⟨fun h => ⟨?_, ?_⟩, fun h => ?_, fun h => ?_, fun h => ?_⟩ <;>
    simp [get_orig_cap, get_dup_cap, get_irq_cap, get_sched_ctrl_cap,
      get_untyped_cptr, CantripOsModelState.new, List.getElem?_replicate, h]

theorem C6_witness :
    get_orig_cap CantripOsModelState.new 0 = some 0 ∧
    get_untyped_cptr CantripOsModelState.new 229 = some 0 :=
  ⟨((C6_fresh_state_all_zero 0).1 (by decide)).1,
   (C6_fresh_state_all_zero 229).2.2.2 (by decide)⟩

/-- C4: for every ID strictly below the relevant capacity, a set followed by
a get of the same ID returns exactly the handle that was set, for each of the
five table accessor pairs. -/
theorem C4_set_get_roundtrip (s : CantripOsModelState) (hWF : WF s)
    (i v : Nat) :
    (i < CONFIG_CAPDL_LOADER_MAX_OBJECTS →
      (set_orig_cap s i v).bind (fun t => get_orig_cap t i) = some v ∧
      (set_dup_cap s i v).bind (fun t => get_dup_cap t i) = some v) ∧
    (i < CONFIG_MAX_NUM_IRQS →
      (set_irq_cap s i v).bind (fun t => get_irq_cap t i) = some v) ∧
    (i < CONFIG_MAX_NUM_NODES →
      (set_sched_ctrl_cap s i v).bind (fun t => get_sched_ctrl_cap t i) = some v) ∧
    (i < CONFIG_MAX_NUM_BOOTINFO_UNTYPED_CAPS →
      (set_untyped_cptr s i v).bind (fun t => get_untyped_cptr t i) = some v) := by
  obtain ⟨h1, h2, h3, h4, h5⟩ := hWF
  refine ⟨fun h => ⟨?_, ?_⟩, fun h => ?_, fun h => ?_, fun h => ?_⟩ <;>
    simp [set_orig_cap, set_dup_cap, set_irq_cap, set_sched_ctrl_cap,
      set_untyped_cptr, get_orig_cap, get_dup_cap, get_irq_cap,
      get_sched_ctrl_cap, get_untyped_cptr, h1, h2, h3, h4, h5, h,
      List.getElem?_set_eq_of_lt]

theorem C4_witness :
    (set_orig_cap CantripOsModelState.new 3 7).bind
      (fun t => get_orig_cap t 3) = some 7 :=
  ((C4_set_get_roundtrip CantripOsModelState.new WF_new 3 7).1 (by decide)).1

/-- C5: every accessor called with an index at or beyond its table's
compile-time capacity is fatal (models the Rust bounds-check panic as
`none`): the get returns no value and the set produces no successor state, so
no wrap-around, silent truncation, or access of another slot occurs. -/
theorem C5_out_of_range_fatal (s : CantripOsModelState) (hWF : WF s)
    (i v : Nat) :
    (CONFIG_CAPDL_LOADER_MAX_OBJECTS ≤ i →
      get_orig_cap s i = none ∧ set_orig_cap s i v = none ∧
      get_dup_cap s i = none ∧ set_dup_cap s i v = none) ∧
    (CONFIG_MAX_NUM_IRQS ≤ i →
      get_irq_cap s i = none ∧ set_irq_cap s i v = none) ∧
    (CONFIG_MAX_NUM_NODES ≤ i →
      get_sched_ctrl_cap s i = none ∧ set_sched_ctrl_cap s i v = none) ∧
    (CONFIG_MAX_NUM_BOOTINFO_UNTYPED_CAPS ≤ i →
      get_untyped_cptr s i = none ∧ set_untyped_cptr s i v = none) := by
  obtain ⟨h1, h2, h3, h4, h5⟩ := hWF
  refine ⟨fun h => ⟨?_, ?_, ?_, ?_⟩, fun h => ⟨?_, ?_⟩, fun h => ⟨?_, ?_⟩,
    fun h => ⟨?_, ?_⟩⟩ <;>
    simp [get_orig_cap, get_dup_cap, get_irq_cap, get_sched_ctrl_cap,
      get_untyped_cptr, set_orig_cap, set_dup_cap, set_irq_cap,
      set_sched_ctrl_cap, set_untyped_cptr, List.getElem?_eq_none,
      h1, h2, h3, h4, h5, h, Nat.not_lt_of_le h]

theorem C5_witness :
    get_orig_cap CantripOsModelState.new 10000 = none ∧
    set_untyped_cptr CantripOsModelState.new 230 5 = none :=
  ⟨((C5_out_of_range_fatal CantripOsModelState.new WF_new 10000 5).1
      (by decide)).1,
   ((C5_out_of_range_fatal CantripOsModelState.new WF_new 230 5).2.2.2
      (by decide)).2⟩

/-- C9: each setter modifies only its own table at the given index; every
other index of that table and all four other tables are unchanged.  (The get
and get_max accessors take the state immutably — in this functional embedding
they are plain functions of the state and return no modified state, so they
cannot change it.) -/
theorem C9_setter_frame (s t : CantripOsModelState) (i j v : Nat)
    (hij : j ≠ i) :
    (set_orig_cap s i v = some t →
      get_orig_cap t j = get_orig_cap s j ∧
      t.capdl_to_sel4_dup = s.capdl_to_sel4_dup ∧
      t.capdl_to_sel4_irq = s.capdl_to_sel4_irq ∧
      t.capdl_to_sched_ctrl = s.capdl_to_sched_ctrl ∧
      t.untyped_cptrs = s.untyped_cptrs) ∧
    (set_dup_cap s i v = some t →
      get_dup_cap t j = get_dup_cap s j ∧
      t.capdl_to_sel4_orig = s.capdl_to_sel4_orig ∧
      t.capdl_to_sel4_irq = s.capdl_to_sel4_irq ∧
      t.capdl_to_sched_ctrl = s.capdl_to_sched_ctrl ∧
      t.untyped_cptrs = s.untyped_cptrs) ∧
    (set_irq_cap s i v = some t →
      get_irq_cap t j = get_irq_cap s j ∧
      t.capdl_to_sel4_orig = s.capdl_to_sel4_orig ∧
      t.capdl_to_sel4_dup = s.capdl_to_sel4_dup ∧
      t.capdl_to_sched_ctrl = s.capdl_to_sched_ctrl ∧
      t.untyped_cptrs = s.untyped_cptrs) ∧
    (set_sched_ctrl_cap s i v = some t →
      get_sched_ctrl_cap t j = get_sched_ctrl_cap s j ∧
      t.capdl_to_sel4_orig = s.capdl_to_sel4_orig ∧
      t.capdl_to_sel4_dup = s.capdl_to_sel4_dup ∧
      t.capdl_to_sel4_irq = s.capdl_to_sel4_irq ∧
      t.untyped_cptrs = s.untyped_cptrs) ∧
    (set_untyped_cptr s i v = some t →
      get_untyped_cptr t j = get_untyped_cptr s j ∧
      t.capdl_to_sel4_orig = s.capdl_to_sel4_orig ∧
      t.capdl_to_sel4_dup = s.capdl_to_sel4_dup ∧
      t.capdl_to_sel4_irq = s.capdl_to_sel4_irq ∧
      t.capdl_to_sched_ctrl = s.capdl_to_sched_ctrl) := by
  refine ⟨?_, ?_, ?_, ?_, ?_⟩ <;> intro hset
  · rw [set_orig_cap] at hset
    split at hset
    · injection hset with hx
      subst hx
      exact ⟨by simp [get_orig_cap, List.getElem?_set_ne (Ne.symm hij)],
        rfl, rfl, rfl, rfl⟩
    · simp at hset
  · rw [set_dup_cap] at hset
    split at hset
    · injection hset with hx
      subst hx
      exact ⟨by simp [get_dup_cap, List.getElem?_set_ne (Ne.symm hij)],
        rfl, rfl, rfl, rfl⟩
    · simp at hset
  · rw [set_irq_cap] at hset
    split at hset
    · injection hset with hx
      subst hx
      exact ⟨by simp [get_irq_cap, List.getElem?_set_ne (Ne.symm hij)],
        rfl, rfl, rfl, rfl⟩
    · simp at hset
  · rw [set_sched_ctrl_cap] at hset
    split at hset
    · injection hset with hx
      subst hx
      exact ⟨by simp [get_sched_ctrl_cap, List.getElem?_set_ne (Ne.symm hij)],
        rfl, rfl, rfl, rfl⟩
    · simp at hset
  · rw [set_untyped_cptr] at hset
    split at hset
    · injection hset with hx
      subst hx
      exact ⟨by simp [get_untyped_cptr, List.getElem?_set_ne (Ne.symm hij)],
        rfl, rfl, rfl, rfl⟩
    · simp at hset

theorem C9_witness :
    get_orig_cap
      { CantripOsModelState.new with
        capdl_to_sel4_orig :=
          CantripOsModelState.new.capdl_to_sel4_orig.set 1 9 } 0 =
      get_orig_cap CantripOsModelState.new 0 ∧
    ({ CantripOsModelState.new with
        capdl_to_sel4_orig :=
          CantripOsModelState.new.capdl_to_sel4_orig.set 1 9 } :
      CantripOsModelState).untyped_cptrs =
      CantripOsModelState.new.untyped_cptrs :=
  ⟨((C9_setter_frame CantripOsModelState.new _ 1 0 9 (by decide)).1
      (by rw [set_orig_cap,
        if_pos (by simp [CantripOsModelState.new]; decide)])).1,
   ((C9_setter_frame CantripOsModelState.new _ 1 0 9 (by decide)).1
      (by rw [set_orig_cap,
        if_pos (by simp [CantripOsModelState.new]; decide)])).2.2.2.2⟩

/-- C10: the setters enforce no write-once discipline: overwriting an
already-set entry succeeds and the get then returns the newest value, for
each of the five tables (the second value may be anything, including the zero
sentinel). -/
theorem C10_last_write_wins (s : CantripOsModelState) (hWF : WF s)
    (i v1 v2 : Nat) :
    (i < CONFIG_CAPDL_LOADER_MAX_OBJECTS →
      ((set_orig_cap s i v1).bind (fun t => set_orig_cap t i v2)).bind
        (fun t => get_orig_cap t i) = some v2 ∧
      ((set_dup_cap s i v1).bind (fun t => set_dup_cap t i v2)).bind
        (fun t => get_dup_cap t i) = some v2) ∧
    (i < CONFIG_MAX_NUM_IRQS →
      ((set_irq_cap s i v1).bind (fun t => set_irq_cap t i v2)).bind
        (fun t => get_irq_cap t i) = some v2) ∧
    (i < CONFIG_MAX_NUM_NODES →
      ((set_sched_ctrl_cap s i v1).bind (fun t => set_sched_ctrl_cap t i v2)).bind
        (fun t => get_sched_ctrl_cap t i) = some v2) ∧
    (i < CONFIG_MAX_NUM_BOOTINFO_UNTYPED_CAPS →
      ((set_untyped_cptr s i v1).bind (fun t => set_untyped_cptr t i v2)).bind
        (fun t => get_untyped_cptr t i) = some v2) := by
  obtain ⟨h1, h2, h3, h4, h5⟩ := hWF
  refine ⟨fun h => ⟨?_, ?_⟩, fun h => ?_, fun h => ?_, fun h => ?_⟩ <;>
    simp [set_orig_cap, set_dup_cap, set_irq_cap, set_sched_ctrl_cap,
      set_untyped_cptr, get_orig_cap, get_dup_cap, get_irq_cap,
      get_sched_ctrl_cap, get_untyped_cptr, h1, h2, h3, h4, h5, h,
      List.length_set, List.getElem?_set_eq_of_lt]

theorem C10_witness :
    ((set_orig_cap CantripOsModelState.new 0 5).bind
        (fun t => set_orig_cap t 0 0)).bind
      (fun t => get_orig_cap t 0) = some 0 :=
  ((C10_last_write_wins CantripOsModelState.new WF_new 0 5 0).1 (by decide)).1

/-- C7: the console sink emits the formatted `target:message` bytes followed
by exactly one appended newline; a record that does not fit the fixed
1024-byte buffer is emitted truncated to exactly 1024 bytes ending in the
3-character marker `...` (bytes 46), plus the newline.  The call is total
(no panic) and uses a fresh local buffer, so it cannot corrupt later log
calls. -/
theorem C7_log_line (f : List Nat) :
    (f.length ≤ LOG_BUF_SIZE → capdl_log f = f ++ [10]) ∧
    (LOG_BUF_SIZE < f.length →
      capdl_log f = f.take (LOG_BUF_SIZE - 3) ++ [46, 46, 46] ++ [10] ∧
      (capdl_log f).length = LOG_BUF_SIZE + 1) := by
  constructor
  · intro h
    simp only [capdl_log, cursor_write, LOG_BUF_SIZE] at h ⊢
    rw [Nat.sub_zero, Nat.min_eq_left h]
    simp only [List.take_zero, List.nil_append, Nat.zero_add, List.take_length,
      lt_self_iff_false, if_false]
    rw [List.take_left]
  · intro h
    simp only [LOG_BUF_SIZE] at h
    have hcap : capdl_log f = f.take 1021 ++ [46, 46, 46] ++ [10] := by
      simp only [capdl_log, cursor_write, LOG_BUF_SIZE]
      rw [Nat.sub_zero, Nat.min_eq_right (Nat.le_of_lt h)]
      simp only [List.take_zero, List.nil_append, Nat.zero_add]
      rw [if_pos h]
      have e0 : List.drop 1024 (List.replicate 1024 (0:Nat)) = [] :=
        List.drop_of_length_le (by rw [List.length_replicate])
      simp only [e0, List.append_nil]
      norm_num
      have e1 : List.take 1021 (List.take 1024 f) = List.take 1021 f := by
        rw [List.take_take]
        norm_num
      have e2 : List.drop 1024 (List.take 1024 f) = [] :=
        List.drop_of_length_le (by rw [List.length_take]; omega)
      have e3 : List.take 3 [(46:Nat), 46, 46] = [46, 46, 46] := rfl
      simp only [e1, e2, e3, List.append_nil]
      have e4 : (List.take 1021 f ++ [(46:Nat), 46, 46]).length = 1024 := by
        simp only [List.length_append, List.length_take, List.length_cons,
          List.length_nil]
        omega
      rw [← e4, List.take_length]
      simp
    refine ⟨hcap, ?_⟩
    rw [hcap]
    simp only [LOG_BUF_SIZE, List.length_append, List.length_take,
      List.length_cons, List.length_nil]
    omega

theorem C7_witness :
    capdl_log (List.replicate 1025 65) =
      (List.replicate 1025 65).take (LOG_BUF_SIZE - 3) ++ [46, 46, 46] ++ [10] :=
  ((C7_log_line (List.replicate 1025 65)).2
    (by rw [List.length_replicate]; norm_num [LOG_BUF_SIZE])).1

/-- C3: the phases of `main` run strictly in the order LoggerInit, HeapInit,
Validate, Construct, Handoff, Start, Suspend — every trace is a prefix of
that order, with no phase re-entered; Start runs only if `init_system` and
`handoff_capabilities` both succeeded, and a failure in Validate, Construct,
Handoff or Start aborts the process so no later phase runs. -/
theorem C3_phase_sequencing (bi : seL4_BootInfo) (spec : CDL_Model)
    (ipcSelf : Nat) (eng : EngineResults) :
    (∃ k, mainTrace bi spec ipcSelf eng = phaseOrder.take k) ∧
    (mainTrace bi spec ipcSelf eng).Nodup ∧
    (Phase.start ∈ mainTrace bi spec ipcSelf eng →
      eng.init_system_ok = true ∧ eng.handoff_ok = true) ∧
    (¬(ipcSelf = bi.ipcBuffer ∧
        CONFIG_CAPDL_LOADER_MAX_OBJECTS ≤ bi.empty.stop - bi.empty.start) →
      Phase.construct ∉ mainTrace bi spec ipcSelf eng) ∧
    (eng.init_system_ok = false →
      Phase.handoff ∉ mainTrace bi spec ipcSelf eng) ∧
    (eng.handoff_ok = false →
      Phase.start ∉ mainTrace bi spec ipcSelf eng) ∧
    (eng.start_ok = false →
      Phase.suspend ∉ mainTrace bi spec ipcSelf eng) := by
  unfold mainTrace
  split_ifs <;>
    refine ⟨?_, ?_, ?_, ?_, ?_, ?_, ?_⟩ <;>
      first
        | exact ⟨3, rfl⟩
        | exact ⟨4, rfl⟩
        | exact ⟨5, rfl⟩
        | exact ⟨6, rfl⟩
        | exact ⟨7, rfl⟩
        | decide
        | simp_all

theorem C3_witness :
    Phase.handoff ∉ mainTrace cx_bootinfo cx_spec 4096 cx_eng_fail :=
  (C3_phase_sequencing cx_bootinfo cx_spec 4096 cx_eng_fail).2.2.2.2.1 rfl

/-- C2: whenever the boot descriptor reports fewer free capability slots
(`empty.end - empty.start`) than `CONFIG_CAPDL_LOADER_MAX_OBJECTS`, the boot
aborts before the Construct phase; with the IPC-buffer check satisfied, a
free-slot count at or above that capacity passes validation and control
reaches Construct. -/
theorem C2_free_slot_validation (bi : seL4_BootInfo) (spec : CDL_Model)
    (ipcSelf : Nat) (eng : EngineResults) :
    (bi.empty.stop - bi.empty.start < CONFIG_CAPDL_LOADER_MAX_OBJECTS →
      Phase.construct ∉ mainTrace bi spec ipcSelf eng) ∧
    (ipcSelf = bi.ipcBuffer →
      CONFIG_CAPDL_LOADER_MAX_OBJECTS ≤ bi.empty.stop - bi.empty.start →
      Phase.construct ∈ mainTrace bi spec ipcSelf eng) := by
  refine ⟨fun hlt => ?_, fun hipc hge => ?_⟩ <;>
    unfold mainTrace <;> split_ifs <;> first | decide | omega

/-- A second boot descriptor, with exactly 10000 free capability slots. -/
def cx_bootinfo2 : seL4_BootInfo where
  ipcBuffer := 8192
  empty := ⟨10, 10010⟩
  numNodes := 1
  untyped := ⟨12, 14⟩
  initThreadCNodeSizeBits := 18

/-- A small specification within every configured capacity. -/
def cx_spec_small : CDL_Model where
  num := 3
  num_irqs := 0
  num_untyped := 2
  num_asid_slots := 1

theorem C2_witness :
    Phase.construct ∈ mainTrace cx_bootinfo2 cx_spec_small 8192 cx_eng :=
  (C2_free_slot_validation cx_bootinfo2 cx_spec_small 8192 cx_eng).2 rfl
    (by decide)

/-- C8: before any capability operation (and in particular before the
Construct phase, the first phase that performs capability operations), `main`
checks `seL4_GetIPCBuffer() == bootinfo.ipcBuffer`; any mismatch aborts the
boot during Validate, so no later phase runs. -/
theorem C8_ipc_mismatch_aborts (bi : seL4_BootInfo) (spec : CDL_Model)
    (ipcSelf : Nat) (eng : EngineResults) (h : ipcSelf ≠ bi.ipcBuffer) :
    mainTrace bi spec ipcSelf eng =
      [Phase.loggerInit, Phase.heapInit, Phase.validate] ∧
    Phase.construct ∉ mainTrace bi spec ipcSelf eng := by
  unfold mainTrace
  simp [h]

theorem C8_witness :
    mainTrace cx_bootinfo cx_spec 0 cx_eng =
      [Phase.loggerInit, Phase.heapInit, Phase.validate] :=
  (C8_ipc_mismatch_aborts cx_bootinfo cx_spec 0 cx_eng (by decide)).1

/-- C1 (counterexample): a specification whose untyped-region count (231)
exceeds `CONFIG_MAX_NUM_BOOTINFO_UNTYPED_CAPS` (230) does NOT abort before
`init_system`: the Construct phase is still entered, because `main` only
logs the specification's resource counts and never compares them with the
table capacities. -/
theorem C1_counterexample :
    CONFIG_MAX_NUM_BOOTINFO_UNTYPED_CAPS < cx_spec.num_untyped ∧
    Phase.construct ∈
      mainTrace cx_bootinfo cx_spec cx_bootinfo.ipcBuffer cx_eng := by
  decide

/-- C1 (amended): before construction, the Boot Validator checks only the
free-capability-slot count (and the IPC buffer); the specification's resource
counts are logged but never compared with the compile-time table capacities,
so the boot trace is independent of them, and an untyped-region count beyond
`untyped_cptrs` capacity is caught only later, during construction, when the
bounds-checked `set_untyped_cptr` accessor aborts on the first out-of-range
index. -/
theorem C1_amended_validation (bi : seL4_BootInfo) (spec spec2 : CDL_Model)
    (ipcSelf : Nat) (eng : EngineResults) (s : CantripOsModelState)
    (hWF : WF s) (ix v : Nat) :
    mainTrace bi spec ipcSelf eng = mainTrace bi spec2 ipcSelf eng ∧
    (CONFIG_MAX_NUM_BOOTINFO_UNTYPED_CAPS ≤ ix →
      set_untyped_cptr s ix v = none) := by
  obtain ⟨-, -, -, -, h5⟩ := hWF
  refine ⟨rfl, fun hix => ?_⟩
  simp only [set_untyped_cptr, h5]
  rw [if_neg (by omega)]

theorem C1_amended_witness :
    mainTrace cx_bootinfo cx_spec 4096 cx_eng =
      mainTrace cx_bootinfo cx_spec_small 4096 cx_eng ∧
    set_untyped_cptr CantripOsModelState.new 231 5 = none :=
  ⟨(C1_amended_validation cx_bootinfo cx_spec cx_spec_small 4096 cx_eng
      CantripOsModelState.new WF_new 231 5).1,
   (C1_amended_validation cx_bootinfo cx_spec cx_spec_small 4096 cx_eng
      CantripOsModelState.new WF_new 231 5).2 (by decide)⟩
